import Mathlib

/-!
# Verification of the backend_lms authentication / permission core

A shallow embedding, in Lean 4, of the authentication and
permission-resolution core of the `backend_lms` repository:

* the token codec (`app/core/jwt.py`),
* the credential hasher PBKDF2 fallback (`app/core/security.py`),
* the permission service (`app/services/permission_service.py`),
* the authentication service (`app/services/auth_service.py`),
* the dependency guards (`app/core/dependencies.py`),
* the login route failure mapping (`app/routers/auth.py`).

Database tables are modelled as lists of row structures, SQL `fetch_one`
as `List.find?`, `fetch_all` with a `WHERE` clause as `List.filter`.
Exceptions are modelled with `Except` / explicit failure constructors,
and Python truthiness tests are modelled by dedicated boolean functions.
Time is an integer Unix timestamp supplied explicitly; the random `jti`
claim and the hashing primitive are supplied as explicit arguments.
-/

namespace LMS

/-- Python truthiness of the `expires_delta : int | None` argument in
`_make_payload` (`if expires_delta:`): `None` and `0` are falsy, every
other integer is truthy. -/
def intOptTruthy : Option Int → Bool
  | none => false
  | some d => d != 0

/-- The decoded claim set of a token (`_make_payload` in `app/core/jwt.py`):
`sub`, `exp` (Unix seconds), the `type` claim (field `typ` here), an
optional `jti`, plus the only extra claims the core ever merges into a
payload (`role` and `email`, used by the synthetic env admin). -/
structure Claims where
  sub : String
  exp : Int
  typ : String
  jti : Option String
  role : Option String
  email : Option String
  deriving Repr, DecidableEq

/-- A token string: either a well-formed JWT signed with some secret (the
HMAC is modelled by recording the signing secret next to the payload) or a
string that is not a well-formed signed token at all. -/
inductive Token where
  | signed (payload : Claims) (secret : String)
  | malformed (raw : String)
  deriving Repr, DecidableEq

/-- HS256 verification as performed by the JWT library (python-jose /
PyJWT, leeway 0): recompute and compare the MAC — modelled as: the
recorded signing secret must equal the verifier's secret — and check the
`exp` claim against the current time (`exp ≤ now` is expired).  Any
failure raises in the library; the result is modelled as `none`. -/
def libDecode (secret : String) (now : Int) : Token → Option Claims
  | .signed p s => if s = secret ∧ now < p.exp then some p else none
  | .malformed _ => none

/-- `decode_token` (`app/core/jwt.py`): call the library decode inside
`try/except` and return `None` on any raised error (signature mismatch,
expiry, malformed payload).  The library model already returns an
`Option`, so the wrapper is the identity on it. -/
def decode_token (secret : String) (now : Int) (tok : Token) : Option Claims :=
  libDecode secret now tok

/-- `_make_payload` (`app/core/jwt.py`): the branch is on Python
truthiness of `expires_delta`, so `0` (like `None`) selects the default
expiry of `timedelta(minutes=15)` for type `access` and `timedelta(days=7)`
for every other type. -/
def _make_payload (now : Int) (jti : String) (subject : String) (typ : String)
    (expires_delta : Option Int) (extra_role extra_email : Option String) : Claims :=
  let exp : Int :=
    if intOptTruthy expires_delta then now + expires_delta.getD 0
    else now + (if typ = "access" then 15 * 60 else 7 * 24 * 60 * 60)
  { sub := subject, exp := exp, typ := typ, jti := some jti,
    role := extra_role, email := extra_email }

/-- `create_access_token` (`app/core/jwt.py`). -/
def create_access_token (secret : String) (now : Int) (jti : String)
    (subject : String) (expires_delta : Option Int)
    (extra_role extra_email : Option String) : Token :=
  .signed (_make_payload now jti subject "access" expires_delta extra_role extra_email) secret

/-- `create_refresh_token` (`app/core/jwt.py`). -/
def create_refresh_token (secret : String) (now : Int) (jti : String)
    (subject : String) (expires_delta : Option Int)
    (extra_role extra_email : Option String) : Token :=
  .signed (_make_payload now jti subject "refresh" expires_delta extra_role extra_email) secret

/-- `create_verification_token` (`app/core/jwt.py`): fixed 24 h expiry,
type claim `email_verify`, no `jti`. -/
def create_verification_token (secret : String) (now : Int) (subject : String) : Token :=
  .signed { sub := subject, exp := now + 24 * 60 * 60, typ := "email_verify",
            jti := none, role := none, email := none } secret

/-- `create_reset_token` (`app/core/jwt.py`): fixed 1 h expiry, type claim
`password_reset`, no `jti`. -/
def create_reset_token (secret : String) (now : Int) (subject : String) : Token :=
  .signed { sub := subject, exp := now + 60 * 60, typ := "password_reset",
            jti := none, role := none, email := none } secret

/-- Default of `ACCESS_TOKEN_EXPIRE_SECONDS` (`app/config/settings.py`). -/
def ACCESS_TOKEN_EXPIRE_SECONDS : Int := 900

/-- Default of `REFRESH_TOKEN_EXPIRE_SECONDS` (`app/config/settings.py`). -/
def REFRESH_TOKEN_EXPIRE_SECONDS : Int := 604800

/-! ## Python string primitives

Executable models of the two Python string primitives the core uses on
data-dependent input: `str.split(sep)` (single-character separator, as in
`hashed.split('$')`) and `int(s)` (raises on anything that is not an
optionally signed digit string; modelled as `none`). -/

/-- Python `s.split(sep)` for a one-character separator, over the char
list: every occurrence of the separator ends a field, empty fields are
kept, and the empty string splits to `[""]`. -/
def pySplitChars (sep : Char) : List Char → List (List Char)
  | [] => [[]]
  | c :: cs =>
    match pySplitChars sep cs with
    | [] => [[]]
    | g :: gs => if c = sep then [] :: g :: gs else (c :: g) :: gs

/-- Python `s.split(sep)` on strings (one-character separator). -/
def pySplit (sep : Char) (s : String) : List String :=
  (pySplitChars sep s.data).map (fun l => String.mk l)

/-- Digit-string accumulator for `pyInt`. -/
def pyDigitsAux : Nat → List Char → Option Nat
  | acc, [] => some acc
  | acc, c :: cs =>
    if c.isDigit then pyDigitsAux (10 * acc + (c.toNat - 48)) cs else none

/-- A non-empty all-digit char list read as a natural number. -/
def pyDigits : List Char → Option Nat
  | [] => none
  | l => pyDigitsAux 0 l

/-- Python `int(s)`: an optional leading minus sign followed by at least
one digit; anything else raises `ValueError`, modelled as `none`. -/
def pyInt (s : String) : Option Int :=
  match s.data with
  | '-' :: rest => (pyDigits rest).map (fun n => -(n : Int))
  | l => (pyDigits l).map (fun n => (n : Int))

/-! ## Data model (`app/models.py`)

Tables are lists of rows; `fetch_one` over a `WHERE` clause is
`List.find?`, `fetch_all` is `List.filter`.  Only the columns the core
reads or writes are modelled. -/

/-- The value stored in a `permissions` text column.  `create_role` and
`create_group` always store `json.dumps` of a list of strings, so the only
shapes the spec and claims distinguish are a valid serialized list
(`ofList ps`) and text on which `json.loads` raises `JSONDecodeError`
(`malformed raw`). -/
inductive PermText where
  | ofList (ps : List String)
  | malformed (raw : String)
  deriving Repr, DecidableEq

/-- `json.loads` applied to a `permissions` column value: a valid
serialized list parses to the list, malformed text raises
(`Except.error`). -/
def json_loads_list : PermText → Except String (List String)
  | .ofList ps => .ok ps
  | .malformed raw => .error raw

/-- Python truthiness of a `permissions` column value
(`if role_result["permissions"]:`): `json.dumps` of any list is at least
`"[]"`, hence truthy; malformed text is falsy exactly when empty. -/
def permTextTruthy : PermText → Bool
  | .ofList _ => true
  | .malformed raw => raw != ""

/-- A row of the `users` table (the columns the core touches). -/
structure UserRow where
  id : Int
  email : String
  hashed_password : Option String
  full_name : Option String
  is_active : Bool
  is_verified : Bool
  role : String
  consent : Bool
  deriving Repr, DecidableEq

/-- A row of the `roles` table. -/
structure RoleRow where
  id : Int
  name : String
  description : Option String
  permissions : PermText
  deriving Repr, DecidableEq

/-- A row of the `groups` table. -/
structure GroupRow where
  id : Int
  name : String
  description : Option String
  permissions : PermText
  deriving Repr, DecidableEq

/-- A row of the `user_groups` membership table. -/
structure UserGroupRow where
  user_id : Int
  group_id : Int
  deriving Repr, DecidableEq

/-- A row of the `user_permissions` table. -/
structure UserPermissionRow where
  user_id : Int
  permission : String
  deriving Repr, DecidableEq

/-- A row of the `sessions` table (the columns the core writes). -/
structure SessionRow where
  id : Int
  user_id : Int
  user_agent : Option String
  ip : Option String
  deriving Repr, DecidableEq

/-- A row of the `audit_logs` table (the columns the core writes; the
serialized `meta` dict is kept as a plain string). -/
structure AuditRow where
  user_id : Option Int
  action : String
  meta : String
  deriving Repr, DecidableEq

/-- The relational store. -/
structure DB where
  users : List UserRow
  roles : List RoleRow
  groups : List GroupRow
  user_groups : List UserGroupRow
  user_permissions : List UserPermissionRow
  sessions : List SessionRow
  audit_logs : List AuditRow
  deriving Repr, DecidableEq

/-! ## Permission service (`app/services/permission_service.py`) -/

/-- The SQL join in `get_user_permissions`:
`SELECT r.permissions FROM roles r JOIN users u ON u.role = r.name WHERE
u.id = :user_id`, consumed with `fetch_one` (role names are unique). -/
def roleRowOfUser (db : DB) (user_id : Int) : Option RoleRow :=
  (db.users.find? (fun u => u.id == user_id)).bind
    (fun u => db.roles.find? (fun r => r.name == u.role))

/-- Contribution of the role source in `get_user_permissions`: gated on
the joined row existing and its `permissions` value being truthy;
`json.JSONDecodeError` is caught and logged, so a malformed value
contributes the empty set. -/
def rolePermsContribution (db : DB) (user_id : Int) : List String :=
  match roleRowOfUser db user_id with
  | none => []
  | some r =>
    if permTextTruthy r.permissions then
      match json_loads_list r.permissions with
      | .ok ps => ps
      | .error _ => []
    else []

/-- `get_user_groups`: the `groups` rows joined through `user_groups` for
one user. -/
def get_user_groups (db : DB) (user_id : Int) : List GroupRow :=
  (db.user_groups.filter (fun ug => ug.user_id == user_id)).filterMap
    (fun ug => db.groups.find? (fun g => g.id == ug.group_id))

/-- Contribution of one group row inside the loop of
`get_user_permissions`: gated on truthiness of its `permissions` value,
with `json.JSONDecodeError` caught (empty contribution). -/
def groupRowContribution (g : GroupRow) : List String :=
  if permTextTruthy g.permissions then
    match json_loads_list g.permissions with
    | .ok ps => ps
    | .error _ => []
  else []

/-- Contribution of the group source in `get_user_permissions`. -/
def groupPermsContribution (db : DB) (user_id : Int) : List String :=
  (get_user_groups db user_id).flatMap groupRowContribution

/-- Contribution of the individual `user_permissions` grants in
`get_user_permissions`. -/
def userPermsContribution (db : DB) (user_id : Int) : List String :=
  (db.user_permissions.filter (fun p => p.user_id == user_id)).map
    (fun p => p.permission)

/-- `get_user_permissions`: the Python set union of the three sources,
modelled as list concatenation (only membership is meaningful). -/
def get_user_permissions (db : DB) (user_id : Int) : List String :=
  rolePermsContribution db user_id ++ groupPermsContribution db user_id
    ++ userPermsContribution db user_id

/-- `check_user_permission`: membership in `get_user_permissions`. -/
def check_user_permission (db : DB) (user_id : Int)
    (required_permission : String) : Bool :=
  (get_user_permissions db user_id).contains required_permission

/-- `delete_role`: the guard queries `users` with
`users.c.role == role_id`, comparing the `role` name column against the
numeric id (under SQLite text affinity the integer is compared as its
text rendering); only when no row matches is the role deleted. -/
def delete_role (db : DB) (role_id : Int) : Except String DB :=
  match db.users.find? (fun u => u.role == toString role_id) with
  | some _ => .error "Cannot delete role - users are assigned to it"
  | none => .ok { db with roles := db.roles.filter (fun r => r.id != role_id) }

/-! ## Dependency guards (`app/core/dependencies.py`) -/

/-- Outcome of the `require_permission` guard: the user is returned, an
`HTTPException` 403 is raised, or an exception escapes the guard
(the guard's `json.loads` calls are not wrapped in `try/except`). -/
inductive GuardResult where
  | ok (u : UserRow)
  | forbidden (detail : String)
  | exception (msg : String)
  deriving Repr, DecidableEq

/-- The `for ug in user_groups` loop at the end of `require_permission`:
fetch each group, parse its permissions with an unguarded `json.loads`,
grant on the sentinel `all` or on the queried permission, and raise
HTTP 403 when the loop ends without a grant. -/
def require_permission_groups (db : DB) (permission : String) (cu : UserRow) :
    List UserGroupRow → GuardResult
  | [] => .forbidden ("Permission " ++ permission ++ " required")
  | ug :: rest =>
    match db.groups.find? (fun g => g.id == ug.group_id) with
    | none => require_permission_groups db permission cu rest
    | some g =>
      match json_loads_list g.permissions with
      | .error e => .exception e
      | .ok group_perms =>
        if "all" ∈ group_perms ∨ permission ∈ group_perms then .ok cu
        else require_permission_groups db permission cu rest

/-- The part of `require_permission` after the role check: the user-level
`user_permissions` lookup, then the group loop. -/
def require_permission_after_role (db : DB) (permission : String)
    (cu : UserRow) : GuardResult :=
  match db.user_permissions.find?
      (fun p => p.user_id == cu.id && p.permission == permission) with
  | some _ => .ok cu
  | none =>
    require_permission_groups db permission cu
      (db.user_groups.filter (fun ug => ug.user_id == cu.id))

/-- `require_permission`: admin bypass first, then role permissions (the
`json.loads` here is unguarded in the source), then user-level grants,
then groups. -/
def require_permission (db : DB) (permission : String) (cu : UserRow) :
    GuardResult :=
  if cu.role = "admin" then .ok cu
  else
    match db.roles.find? (fun r => r.name == cu.role) with
    | some r =>
      match json_loads_list r.permissions with
      | .error e => .exception e
      | .ok role_perms =>
        if "all" ∈ role_perms ∨ permission ∈ role_perms then .ok cu
        else require_permission_after_role db permission cu
    | none => require_permission_after_role db permission cu

/-- The principal resolved from an access token: the synthetic
environment-configured admin, or a database user row. -/
inductive Principal where
  | envAdmin (email : Option String)
  | dbUser (u : UserRow)
  deriving Repr, DecidableEq

/-- Outcome of `get_current_user`: a principal, an `HTTPException`
(status, detail), or an uncaught exception (`int(user_id)` is outside any
`try/except`). -/
inductive AuthResult where
  | ok (p : Principal)
  | httpError (status : Nat) (detail : String)
  | exception (msg : String)
  deriving Repr, DecidableEq

/-- `get_current_user`: decode the bearer token; 401 unless the decode
succeeds and the `type` claim is `access`; 401 on a falsy `sub`; the
synthetic admin is materialized for `sub == "0"` with `role` claim
`admin`; otherwise the user row is fetched by `int(sub)`, 401 when
missing and 403 when inactive. -/
def get_current_user (secret : String) (now : Int) (db : DB) (tok : Token) :
    AuthResult :=
  match decode_token secret now tok with
  | none => .httpError 401 "Invalid authentication credentials"
  | some payload =>
    if payload.typ ≠ "access" then
      .httpError 401 "Invalid authentication credentials"
    else if payload.sub = "" then .httpError 401 "Invalid token payload"
    else if payload.sub = "0" ∧ payload.role = some "admin" then
      .ok (.envAdmin payload.email)
    else
      match pyInt payload.sub with
      | none => .exception "ValueError in int(user_id)"
      | some uid =>
        match db.users.find? (fun u => u.id == uid) with
        | none => .httpError 401 "User not found"
        | some u =>
          if u.is_active then .ok (.dbUser u)
          else .httpError 403 "User account is inactive"

/-! ## Authentication service (`app/services/auth_service.py`) and the
login route (`app/routers/auth.py`)

The email dispatch is an external best-effort side effect and is elided;
`audit_service.log` (`app/services/audit_service.py`) is modelled as an
append to `audit_logs` (it nulls the env-admin user id 0), and
`session_service.create_session` as an append to `sessions` returning the
new row id. -/

/-- `audit_service.log`. -/
def audit_log (db : DB) (user_id : Option Int) (action : String)
    (meta : String) : DB :=
  let uid := if user_id = some 0 then none else user_id
  { db with audit_logs := db.audit_logs ++ [⟨uid, action, meta⟩] }

/-- `session_service.create_session`: insert a session row; the returned
value models the autoincrement row id. -/
def create_session (db : DB) (user_id : Int) (user_agent ip : Option String) :
    Int × DB :=
  let sid : Int := Int.ofNat db.sessions.length + 1
  (sid, { db with sessions := db.sessions ++ [⟨sid, user_id, user_agent, ip⟩] })

/-- The autoincrement id handed to a new `users` row. -/
def nextUserId (db : DB) : Int :=
  (db.users.map (fun u => u.id)).foldl max 0 + 1

/-- The value `register_user` returns on success together with the token
it embeds in the verification link it dispatches. -/
structure RegisterOk where
  user : UserRow
  emailToken : Token
  deriving Repr, DecidableEq

/-- `register_user`: reject an existing email with `ValueError`; insert
the user with `is_active=True`, `is_verified=False`, `role="student"`;
build the verification link around `create_refresh_token(str(user.id))`;
write the `user.register` audit entry; return the new user. -/
def register_user (secret : String) (now : Int) (jti : String)
    (hashFn : String → String) (db : DB) (email password : String)
    (consent : Bool) : Except String (RegisterOk × DB) :=
  match db.users.find? (fun u => u.email == email) with
  | some _ => .error "User already exists"
  | none =>
    let hashed := hashFn password
    let uid := nextUserId db
    let user : UserRow :=
      { id := uid, email := email, hashed_password := some hashed,
        full_name := none, is_active := true, is_verified := false,
        role := "student", consent := consent }
    let db1 := { db with users := db.users ++ [user] }
    let token := create_refresh_token secret now jti (toString uid) none none none
    let db2 := audit_log db1 (some uid) "user.register" ""
    .ok ({ user := user, emailToken := token }, db2)

/-- Python truthiness of the stored password hash
(`if not user["hashed_password"]:`): `None` and the empty string are
falsy. -/
def pyFalsyStrOpt : Option String → Bool
  | none => true
  | some s => s == ""

/-- The access/refresh pair returned by a successful login or refresh. -/
structure TokenPair where
  access_token : Token
  refresh_token : Token
  deriving Repr, DecidableEq

/-- `authenticate_user` (password mode): look the user up by email —
absent: audit `not_found` and return `None`; falsy stored hash: return
`None`; hash mismatch: audit `invalid_password` and return `None`;
otherwise create a session, issue the access/refresh pair with the
configured TTLs, audit success.  The password verifier is the
environment-selected `verify_password`, passed in as `verifyFn`. -/
def authenticate_user (secret : String) (now : Int) (jtiA jtiR : String)
    (verifyFn : String → String → Bool) (db : DB) (email password : String)
    (user_agent ip : Option String) : Option TokenPair × DB :=
  match db.users.find? (fun u => u.email == email) with
  | none => (none, audit_log db none "auth.failure" "not_found")
  | some u =>
    if pyFalsyStrOpt u.hashed_password then (none, db)
    else if verifyFn password (u.hashed_password.getD "") then
      let (sid, db1) := create_session db u.id user_agent ip
      let access := create_access_token secret now jtiA (toString u.id)
        (some ACCESS_TOKEN_EXPIRE_SECONDS) none none
      let refresh := create_refresh_token secret now jtiR (toString u.id)
        (some REFRESH_TOKEN_EXPIRE_SECONDS) none none
      (some ⟨access, refresh⟩,
        audit_log db1 (some u.id) "auth.success" (toString sid))
    else (none, audit_log db (some u.id) "auth.failure" "invalid_password")

/-- What the login route surfaces to the caller. -/
inductive LoginOutcome where
  | ok (tokens : TokenPair)
  | httpError (status : Nat) (detail : String)
  deriving Repr, DecidableEq

/-- The `/login` route (`app/routers/auth.py`): a `None` from
`authenticate_user` becomes HTTP 401 "Invalid credentials". -/
def login (secret : String) (now : Int) (jtiA jtiR : String)
    (verifyFn : String → String → Bool) (db : DB) (email password : String)
    (user_agent ip : Option String) : LoginOutcome × DB :=
  match authenticate_user secret now jtiA jtiR verifyFn db email password
      user_agent ip with
  | (none, db1) => (.httpError 401 "Invalid credentials", db1)
  | (some tp, db1) => (.ok tp, db1)

/-- `refresh_tokens`: decode; `None` unless the decode succeeds and the
`type` claim is `refresh`; otherwise issue a fresh pair for the same
subject and audit the refresh. -/
def refresh_tokens (secret : String) (now : Int) (jtiA jtiR : String)
    (db : DB) (tok : Token) : Option TokenPair × DB :=
  match decode_token secret now tok with
  | none => (none, db)
  | some payload =>
    if payload.typ ≠ "refresh" then (none, db)
    else
      let user_id := payload.sub
      let access := create_access_token secret now jtiA user_id
        (some ACCESS_TOKEN_EXPIRE_SECONDS) none none
      let refresh := create_refresh_token secret now jtiR user_id
        (some REFRESH_TOKEN_EXPIRE_SECONDS) none none
      (some ⟨access, refresh⟩, audit_log db (pyInt user_id) "auth.refresh" "")

/-- `logout`: decode the presented token; `False` when the decode fails,
otherwise audit the logout and return `True`.  The `type` claim is not
inspected. -/
def logout (secret : String) (now : Int) (db : DB) (tok : Token) :
    Bool × DB :=
  match decode_token secret now tok with
  | none => (false, db)
  | some payload => (true, audit_log db (pyInt payload.sub) "auth.logout" "")

/-! ## Credential hasher fallback (`app/core/security.py`)

The PBKDF2 fallback `verify_password`.  The byte-level primitives are
passed in as functions: `b64decode` returns `none` where
`base64.b64decode` raises `binascii.Error`, and `pbkdf2` models the total
`hashlib.pbkdf2_hmac`.  The source wraps the body in `try/except
Exception: return False`, so every parsing failure maps to `false`. -/

/-- The fallback `verify_password`: split the digest on the dollar
character, require exactly four fields with the `pbkdf2_sha256` scheme
tag, parse the iteration count with `int`, base64-decode salt and hash,
recompute and compare (`hmac.compare_digest`); any failure is caught and
yields `false`. -/
def verify_password_fallback (b64decode : String → Option (List Nat))
    (pbkdf2 : String → List Nat → Int → List Nat)
    (plain hashed : String) : Bool :=
  match pySplit '$' hashed with
  | [p0, p1, p2, p3] =>
    if p0 ≠ "pbkdf2_sha256" then false
    else
      match pyInt p1 with
      | none => false
      | some iterations =>
        match b64decode p2 with
        | none => false
        | some salt =>
          match b64decode p3 with
          | none => false
          | some dk => pbkdf2 plain salt iterations == dk
  | _ => false

/-! ## Concrete stores used by witnesses and counterexamples -/

/-- The empty store. -/
def exDB_empty : DB :=
  { users := [], roles := [], groups := [], user_groups := [],
    user_permissions := [], sessions := [], audit_logs := [] }

/-- A store whose only user has `role = "admin"` while every permission
table is empty. -/
def adminRow : UserRow :=
  { id := 1, email := "admin@x.com", hashed_password := some "h",
    full_name := none, is_active := true, is_verified := true,
    role := "admin", consent := true }

/-- Store containing only `adminRow`. -/
def exDB_admin : DB :=
  { users := [adminRow], roles := [], groups := [], user_groups := [],
    user_permissions := [], sessions := [], audit_logs := [] }

/-- A non-admin user whose role row carries permissions text that is not
valid JSON. -/
def editorRow : UserRow :=
  { id := 1, email := "e@x.com", hashed_password := some "h",
    full_name := none, is_active := true, is_verified := true,
    role := "editor", consent := true }

/-- Store where the `editor` role row has malformed permissions. -/
def exDB_badjson : DB :=
  { users := [editorRow],
    roles := [{ id := 1, name := "editor", description := none,
                permissions := .malformed "not-json" }],
    groups := [], user_groups := [], user_permissions := [],
    sessions := [], audit_logs := [] }

/-- Store where both the role row and the joined group row carry
malformed permissions while one individual grant exists. -/
def exDB_badjson2 : DB :=
  { users := [editorRow],
    roles := [{ id := 1, name := "editor", description := none,
                permissions := .malformed "oops" }],
    groups := [{ id := 1, name := "g", description := none,
                 permissions := .malformed "" }],
    user_groups := [{ user_id := 1, group_id := 1 }],
    user_permissions := [{ user_id := 1, permission := "blog.read" }],
    sessions := [], audit_logs := [] }

/-- Store realizing the spec scenario: role permissions `{a}`, one group
with `{b}`, an individual grant `{c}`. -/
def exDB_union : DB :=
  { users := [editorRow],
    roles := [{ id := 1, name := "editor", description := none,
                permissions := .ofList ["a"] }],
    groups := [{ id := 1, name := "editors", description := none,
                 permissions := .ofList ["b"] }],
    user_groups := [{ user_id := 1, group_id := 1 }],
    user_permissions := [{ user_id := 1, permission := "c" }],
    sessions := [], audit_logs := [] }

/-- Store with a `student` role row and a user referencing it by name. -/
def exDB_roleref : DB :=
  { users := [{ id := 1, email := "s@x.com", hashed_password := some "h",
                full_name := none, is_active := true, is_verified := true,
                role := "student", consent := true }],
    roles := [{ id := 1, name := "student", description := none,
                permissions := .ofList [] }],
    groups := [], user_groups := [], user_permissions := [],
    sessions := [], audit_logs := [] }

/-- Store with one user whose stored digest is `"correct"`. -/
def exDB_real : DB :=
  { users := [{ id := 1, email := "real@x.com", hashed_password := some "correct",
                full_name := none, is_active := true, is_verified := true,
                role := "student", consent := true }],
    roles := [], groups := [], user_groups := [], user_permissions := [],
    sessions := [], audit_logs := [] }

/-! ## Theorems -/

/-- C6: `decode_token` never raises and returns `none` on every invalid
input: any string that is not a well-formed signed token, any signature
produced with a different secret, any expired token, and in particular a
token encoded with `ttl_seconds = -1` checked at or after its creation
time. -/
theorem decode_returns_null_on_invalid :
    (∀ (secret : String) (now : Int) (raw : String),
        decode_token secret now (.malformed raw) = none)
    ∧ (∀ (secret : String) (now : Int) (p : Claims) (s : String),
        s ≠ secret → decode_token secret now (.signed p s) = none)
    ∧ (∀ (secret : String) (now : Int) (p : Claims) (s : String),
        p.exp ≤ now → decode_token secret now (.signed p s) = none)
    ∧ (∀ (secret : String) (now t : Int) (jti subject : String),
        now ≤ t →
          decode_token secret t
              (create_access_token secret now jti subject (some (-1)) none none)
            = none) := by
  refine ⟨fun _ _ _ => rfl, ?_, ?_, ?_⟩
  · intro secret now p s hs
    show (if s = secret ∧ now < p.exp then some p else none) = none
    exact if_neg (fun hc => hs hc.1)
  · intro secret now p s hexp
    show (if s = secret ∧ now < p.exp then some p else none) = none
    exact if_neg (fun hc => absurd hc.2 (not_lt.mpr hexp))
  · intro secret now t jti subject hle
    simp only [decode_token, libDecode, create_access_token, _make_payload,
      intOptTruthy]
    rw [if_neg]
    intro hc
    have h2 := hc.2
    simp [Option.getD] at h2
    omega

/-- C6 witness: the three guarded cases of
`decode_returns_null_on_invalid` at concrete inputs. -/
theorem decode_returns_null_on_invalid_witness :
    decode_token "k" 7
        (.signed { sub := "1", exp := 100, typ := "access", jti := some "j",
                   role := none, email := none } "wrong") = none
    ∧ decode_token "k" 200
        (.signed { sub := "1", exp := 100, typ := "access", jti := some "j",
                   role := none, email := none } "k") = none
    ∧ decode_token "k" 5
        (create_access_token "k" 5 "j" "1" (some (-1)) none none) = none :=
  ⟨decode_returns_null_on_invalid.2.1 "k" 7 _ "wrong" (by decide),
   decode_returns_null_on_invalid.2.2.1 "k" 200 _ "k" (by decide),
   decode_returns_null_on_invalid.2.2.2 "k" 5 5 "j" "1" (by omega)⟩

/-- C10: `ttl_seconds = 0` is falsy for the truthiness branch of
`_make_payload`, so it behaves exactly like an omitted ttl: default
expiry of 15 minutes for type `access` and 7 days for every other type;
consequently `create_access_token` with ttl 0 equals the call without a
ttl. -/
theorem ttl_zero_yields_default_expiry :
    ∀ (secret : String) (now : Int) (jti subject typ : String)
      (ro em : Option String),
      _make_payload now jti subject typ (some 0) ro em
          = _make_payload now jti subject typ none ro em
      ∧ (_make_payload now jti subject "access" (some 0) ro em).exp = now + 900
      ∧ (typ ≠ "access" →
          (_make_payload now jti subject typ (some 0) ro em).exp = now + 604800)
      ∧ create_access_token secret now jti subject (some 0) ro em
          = create_access_token secret now jti subject none ro em := by
  intro secret now jti subject typ ro em
  refine ⟨rfl, ?_, ?_, rfl⟩
  · simp [_make_payload, intOptTruthy]
  · intro h
    simp [_make_payload, intOptTruthy, h]

/-- C10 witness: the guarded conjunct of `ttl_zero_yields_default_expiry`
at type `refresh`. -/
theorem ttl_zero_yields_default_expiry_witness :
    (_make_payload 1000 "j" "1" "refresh" (some 0) none none).exp
      = 1000 + 604800 :=
  (ttl_zero_yields_default_expiry "k" 1000 "j" "1" "refresh" none none).2.2.1
    (by decide)

/-- C2: on a successful registration the token embedded in the dispatched
verification message decodes with type claim `refresh`, not
`email_verify` — `register_user` calls `create_refresh_token`, while the
purpose-built `create_verification_token` is never called. -/
theorem register_embeds_refresh_token :
    (register_user "k" 0 "j" (fun p => String.append "h:" p) exDB_empty
        "a@x.com" "Passw0rd1" true).toOption.map
      (fun x => (decode_token "k" 0 x.fst.emailToken).map Claims.typ)
        = some (some "refresh")
    ∧ ("refresh" : String) ≠ "email_verify" := by
  exact ⟨by decide, by decide⟩

/-- C9: `delete_role` compares the `users.role` name column against the
numeric role id, so a role deletes even while a user references it by
name: in `exDB_roleref` a user has role name `student` and the `student`
role has id 1, yet `delete_role _ 1` succeeds and removes the row. -/
theorem delete_role_ignores_name_references :
    exDB_roleref.users.any (fun u => u.role == "student") = true
    ∧ exDB_roleref.roles.any (fun r => r.id == 1 && r.name == "student") = true
    ∧ (delete_role exDB_roleref 1).toOption
        = some { exDB_roleref with roles := [] } := by
  exact ⟨by decide, by decide, by decide⟩

/-- C8 (fallback half): the PBKDF2 fallback `verify_password` returns
`false`, and cannot raise, on digests that are not well-formed
`pbkdf2_sha256$iterations$salt$hash` strings: garbage without separators,
the empty string, a wrong scheme tag, a non-numeric iteration count, a
wrong field count — for every plaintext and every behaviour of the
base64/pbkdf2 primitives. -/
theorem verify_fallback_malformed_returns_false :
    ∀ (b64decode : String → Option (List Nat))
      (pbkdf2 : String → List Nat → Int → List Nat) (plain : String),
      verify_password_fallback b64decode pbkdf2 plain "garbage" = false
      ∧ verify_password_fallback b64decode pbkdf2 plain "" = false
      ∧ verify_password_fallback b64decode pbkdf2 plain
          "scrypt$1$AAAA$BBBB" = false
      ∧ verify_password_fallback b64decode pbkdf2 plain
          "pbkdf2_sha256$many$AAAA$BBBB" = false
      ∧ verify_password_fallback b64decode pbkdf2 plain
          "pbkdf2_sha256$1$AAAA" = false := by
  intro b64decode pbkdf2 plain
  exact ⟨rfl, rfl, rfl, rfl, rfl⟩

/-- C1 counterexample: in `exDB_admin` the only user has
`role = "admin"`, yet `PermissionService.check_user_permission` denies an
arbitrary permission — the hard-coded admin bypass exists only in the
`require_permission` guard, not in the service. -/
theorem check_user_permission_no_admin_bypass :
    (exDB_admin.users.find? (fun u => u.id == 1)).map UserRow.role
        = some "admin"
    ∧ check_user_permission exDB_admin 1 "courses.manage" = false := by
  exact ⟨by decide, by decide⟩

/-- C1 (amended): for every store, every permission and every current
user whose `role` field is `admin`, the `require_permission` guard
returns the user immediately, before any Role/Group/UserPermission
lookup. -/
theorem require_permission_admin_bypass :
    ∀ (db : DB) (permission : String) (cu : UserRow),
      cu.role = "admin" → require_permission db permission cu = .ok cu := by
  intro db permission cu h
  simp [require_permission, h]

/-- C1 witness: `require_permission_admin_bypass` on `adminRow` over the
empty permission tables. -/
theorem require_permission_admin_bypass_witness :
    adminRow.role = "admin"
    ∧ require_permission exDB_admin "courses.manage" adminRow = .ok adminRow :=
  ⟨by decide,
   require_permission_admin_bypass exDB_admin "courses.manage" adminRow
     (by decide)⟩

/-- C3 counterexample: with the `editor` role row holding permissions
text that is not valid JSON, the `require_permission` guard raises the
parse error (its `json.loads` is unguarded) instead of denying — the
outcome is the escaped-exception case, not `forbidden` and not a
grant. -/
theorem require_permission_propagates_parse_error :
    require_permission exDB_badjson "blog.write" editorRow
      = .exception "not-json" := by
  decide

/-- Helper: a list of group rows all of whose permissions are malformed
contributes nothing. -/
theorem flatMap_groupRowContribution_malformed :
    ∀ (gs : List GroupRow),
      (∀ g ∈ gs, ∃ raw, g.permissions = PermText.malformed raw) →
      gs.flatMap groupRowContribution = [] := by
  intro gs
  induction gs with
  | nil => intro _; rfl
  | cons g rest ih =>
    intro h
    obtain ⟨raw, hraw⟩ := h g (List.mem_cons_self g rest)
    have hg : groupRowContribution g = [] := by
      by_cases hr : raw = ""
      · simp [groupRowContribution, hraw, permTextTruthy, hr]
      · simp [groupRowContribution, hraw, permTextTruthy, hr, json_loads_list]
    simp only [List.flatMap_cons, hg, List.nil_append]
    exact ih (fun g2 hg2 => h g2 (List.mem_cons_of_mem g hg2))

/-- C3 (amended): resolution through the permission service fails closed —
a Role (or Group) permissions value that is not valid JSON contributes
the empty set and `get_user_permissions` returns normally, here shown by
its role contribution vanishing, a malformed group row contributing
nothing, and the full resolution collapsing to the individual grants when
role and all groups are malformed.  (The `require_permission` guard, by
contrast, propagates the parse error — see the counterexample.) -/
theorem resolve_fail_closed :
    (∀ (db : DB) (uid : Int) (r : RoleRow) (raw : String),
        roleRowOfUser db uid = some r →
        r.permissions = PermText.malformed raw →
        rolePermsContribution db uid = [])
    ∧ (∀ (g : GroupRow) (raw : String),
        g.permissions = PermText.malformed raw → groupRowContribution g = [])
    ∧ (∀ (db : DB) (uid : Int) (r : RoleRow) (raw : String),
        roleRowOfUser db uid = some r →
        r.permissions = PermText.malformed raw →
        (∀ g ∈ get_user_groups db uid, ∃ raw2,
            g.permissions = PermText.malformed raw2) →
        get_user_permissions db uid = userPermsContribution db uid) := by
  have hrole : ∀ (db : DB) (uid : Int) (r : RoleRow) (raw : String),
      roleRowOfUser db uid = some r →
      r.permissions = PermText.malformed raw →
      rolePermsContribution db uid = [] := by
    intro db uid r raw hr hperm
    by_cases he : raw = ""
    · simp [rolePermsContribution, hr, hperm, permTextTruthy, he]
    · simp [rolePermsContribution, hr, hperm, permTextTruthy, he,
        json_loads_list]
  have hgroup : ∀ (g : GroupRow) (raw : String),
      g.permissions = PermText.malformed raw → groupRowContribution g = [] := by
    intro g raw hraw
    by_cases he : raw = ""
    · simp [groupRowContribution, hraw, permTextTruthy, he]
    · simp [groupRowContribution, hraw, permTextTruthy, he, json_loads_list]
  refine ⟨hrole, hgroup, ?_⟩
  intro db uid r raw hr hperm hgs
  have h1 := hrole db uid r raw hr hperm
  have h2 : groupPermsContribution db uid = [] :=
    flatMap_groupRowContribution_malformed (get_user_groups db uid) hgs
  simp [get_user_permissions, h1, h2]

/-- C3 witness: `resolve_fail_closed` on `exDB_badjson2`, where the role
row and the only group row are malformed — resolution returns exactly the
individual grants. -/
theorem resolve_fail_closed_witness :
    roleRowOfUser exDB_badjson2 1
        = some { id := 1, name := "editor", description := none,
                 permissions := .malformed "oops" }
    ∧ get_user_permissions exDB_badjson2 1
        = userPermsContribution exDB_badjson2 1 :=
  ⟨by decide,
   resolve_fail_closed.2.2 exDB_badjson2 1
     { id := 1, name := "editor", description := none,
       permissions := .malformed "oops" } "oops" (by decide) (by decide)
     (by
       intro g hg
       simp [get_user_groups, exDB_badjson2, List.filter, List.filterMap,
         List.find?] at hg
       exact ⟨"", by rw [hg]⟩)⟩

/-- C4 counterexample: `logout` succeeds on a validly signed, unexpired
access token — the token decodes with type claim `access`, yet `logout`
returns `True`, because it only checks that the decode is non-null. -/
theorem logout_accepts_access_token :
    (decode_token "k" 0 (create_access_token "k" 0 "j" "1" none none none)).map
        Claims.typ = some "access"
    ∧ (logout "k" 0 exDB_empty
        (create_access_token "k" 0 "j" "1" none none none)).fst = true := by
  exact ⟨by decide, by decide⟩

/-- C4 (amended): type isolation holds for `get_current_user` (401 on any
decodable token whose type claim is not `access`) and for
`refresh_tokens` (`None` on any decodable token whose type claim is not
`refresh`); `logout`, however, returns `True` on every token that
decodes, regardless of its type claim — it performs no type check. -/
theorem token_type_isolation :
    (∀ (secret : String) (now : Int) (db : DB) (tok : Token) (c : Claims),
        decode_token secret now tok = some c → c.typ ≠ "access" →
          get_current_user secret now db tok
            = .httpError 401 "Invalid authentication credentials")
    ∧ (∀ (secret : String) (now : Int) (jA jR : String) (db : DB)
        (tok : Token) (c : Claims),
        decode_token secret now tok = some c → c.typ ≠ "refresh" →
          (refresh_tokens secret now jA jR db tok).fst = none)
    ∧ (∀ (secret : String) (now : Int) (db : DB) (tok : Token) (c : Claims),
        decode_token secret now tok = some c →
          (logout secret now db tok).fst = true) := by
  refine ⟨?_, ?_, ?_⟩
  · intro secret now db tok c hdec hne
    simp [get_current_user, hdec, hne]
  · intro secret now jA jR db tok c hdec hne
    simp [refresh_tokens, hdec, hne]
  · intro secret now db tok c hdec
    simp [logout, hdec]

/-- C4 witness: `token_type_isolation` at concrete tokens — a refresh
token hitting `get_current_user`, an access token hitting
`refresh_tokens`, and a refresh token hitting `logout`. -/
theorem token_type_isolation_witness :
    get_current_user "k" 0 exDB_empty
        (create_refresh_token "k" 0 "j" "1" none none none)
      = .httpError 401 "Invalid authentication credentials"
    ∧ (refresh_tokens "k" 0 "a" "b" exDB_empty
        (create_access_token "k" 0 "j" "1" none none none)).fst = none
    ∧ (logout "k" 0 exDB_empty
        (create_refresh_token "k" 0 "j" "1" none none none)).fst = true :=
  ⟨token_type_isolation.1 "k" 0 exDB_empty _
     { sub := "1", exp := 604800, typ := "refresh", jti := some "j",
       role := none, email := none } (by decide) (by decide),
   token_type_isolation.2.1 "k" 0 "a" "b" exDB_empty _
     { sub := "1", exp := 900, typ := "access", jti := some "j",
       role := none, email := none } (by decide) (by decide),
   token_type_isolation.2.2 "k" 0 exDB_empty _
     { sub := "1", exp := 604800, typ := "refresh", jti := some "j",
       role := none, email := none } (by decide)⟩

/-- C5: two-run indistinguishability of password-mode authentication
failures — for any password, `authenticate_user` on an email with no user
row and on an existing email whose password does not verify (including a
null/empty stored hash) both return `None`, and the login route surfaces
the identical 401 outcome for both runs. -/
theorem authenticate_no_user_enumeration :
    ∀ (secret : String) (now : Int) (jA jR jA2 jR2 : String)
      (verifyFn : String → String → Bool) (db1 db2 : DB)
      (e1 e2 pw1 pw2 : String) (ua1 ip1 ua2 ip2 : Option String)
      (u : UserRow),
      db1.users.find? (fun x => x.email == e1) = none →
      db2.users.find? (fun x => x.email == e2) = some u →
      (∀ hp, u.hashed_password = some hp → verifyFn pw2 hp = false) →
      (authenticate_user secret now jA jR verifyFn db1 e1 pw1 ua1 ip1).fst
          = none
      ∧ (authenticate_user secret now jA2 jR2 verifyFn db2 e2 pw2 ua2 ip2).fst
          = none
      ∧ (login secret now jA jR verifyFn db1 e1 pw1 ua1 ip1).fst
          = (login secret now jA2 jR2 verifyFn db2 e2 pw2 ua2 ip2).fst := by
  intro secret now jA jR jA2 jR2 verifyFn db1 db2 e1 e2 pw1 pw2 ua1 ip1
    ua2 ip2 u h1 h2 h3
  have p1 : (authenticate_user secret now jA jR verifyFn db1 e1 pw1
      ua1 ip1).fst = none := by
    simp [authenticate_user, h1]
  have p2 : (authenticate_user secret now jA2 jR2 verifyFn db2 e2 pw2
      ua2 ip2).fst = none := by
    simp only [authenticate_user, h2]
    cases hhp : u.hashed_password with
    | none => simp [pyFalsyStrOpt]
    | some s =>
      by_cases hs : s = ""
      · simp [pyFalsyStrOpt, hs]
      · have hv := h3 s hhp
        simp [pyFalsyStrOpt, hs, hv]
  refine ⟨p1, p2, ?_⟩
  simp only [login]
  rcases hA1 : authenticate_user secret now jA jR verifyFn db1 e1 pw1
    ua1 ip1 with ⟨r1, d1⟩
  rcases hA2 : authenticate_user secret now jA2 jR2 verifyFn db2 e2 pw2
    ua2 ip2 with ⟨r2, d2⟩
  rw [hA1] at p1
  rw [hA2] at p2
  simp only at p1 p2
  subst p1
  subst p2
  rfl

/-- C5 witness: `authenticate_no_user_enumeration` with a concrete
verifier (string equality against the stored digest), an unknown email
against the empty store, and a wrong password against `exDB_real`. -/
theorem authenticate_no_user_enumeration_witness :
    (authenticate_user "k" 0 "a" "r" (fun p h => p == h) exDB_empty
        "unknown@x.com" "anything" none none).fst = none
    ∧ (authenticate_user "k" 0 "a" "r" (fun p h => p == h) exDB_real
        "real@x.com" "wrongpassword" none none).fst = none
    ∧ (login "k" 0 "a" "r" (fun p h => p == h) exDB_empty
        "unknown@x.com" "anything" none none).fst
      = (login "k" 0 "a" "r" (fun p h => p == h) exDB_real
        "real@x.com" "wrongpassword" none none).fst :=
  authenticate_no_user_enumeration "k" 0 "a" "r" "a" "r"
    (fun p h => p == h) exDB_empty exDB_real "unknown@x.com" "real@x.com"
    "anything" "wrongpassword" none none none none
    { id := 1, email := "real@x.com", hashed_password := some "correct",
      full_name := none, is_active := true, is_verified := true,
      role := "student", consent := true }
    (by decide) (by decide)
    (by intro hp h; injection h with h2; subst h2; decide)

/-- Helper: a list of group rows whose permissions are exactly the valid
serializations of `Bs` contributes the concatenation of `Bs`. -/
theorem flatMap_groupRowContribution_ofList :
    ∀ (gs : List GroupRow) (Bs : List (List String)),
      gs.map (fun g => g.permissions) = Bs.map PermText.ofList →
      gs.flatMap groupRowContribution = Bs.flatten := by
  intro gs
  induction gs with
  | nil =>
    intro Bs h
    cases Bs with
    | nil => rfl
    | cons B Bs2 => simp at h
  | cons g rest ih =>
    intro Bs h
    cases Bs with
    | nil => simp at h
    | cons B Bs2 =>
      simp only [List.map_cons, List.cons.injEq] at h
      have hg : groupRowContribution g = B := by
        simp [groupRowContribution, h.1, permTextTruthy, json_loads_list]
      simp only [List.flatMap_cons, List.flatten_cons, hg, ih Bs2 h.2]

/-- C7: union law of permission resolution — for every store and every
non-admin user whose role row serializes the permission set `A`, whose
joined group rows serialize `B1..Bn`, and whose individual grants are
`C`, `get_user_permissions` returns exactly the union
`A ∪ B1 ∪ ... ∪ Bn ∪ C` (as the concatenation, so equal as sets). -/
theorem resolve_union_law :
    ∀ (db : DB) (uid : Int) (u : UserRow) (r : RoleRow)
      (A : List String) (Bs : List (List String)) (C : List String),
      u.role ≠ "admin" →
      db.users.find? (fun x => x.id == uid) = some u →
      db.roles.find? (fun x => x.name == u.role) = some r →
      r.permissions = PermText.ofList A →
      (get_user_groups db uid).map (fun g => g.permissions)
          = Bs.map PermText.ofList →
      userPermsContribution db uid = C →
      get_user_permissions db uid = A ++ Bs.flatten ++ C := by
  intro db uid u r A Bs C _hadm hu hr hA hB hC
  have h1 : rolePermsContribution db uid = A := by
    simp [rolePermsContribution, roleRowOfUser, hu, hr, hA, permTextTruthy,
      json_loads_list]
  have h2 : groupPermsContribution db uid = Bs.flatten :=
    flatMap_groupRowContribution_ofList (get_user_groups db uid) Bs hB
  simp [get_user_permissions, h1, h2, hC]

/-- C7 witness: `resolve_union_law` on `exDB_union` — role `{a}`, one
group `{b}`, individual grant `{c}` resolve to `{a, b, c}`. -/
theorem resolve_union_law_witness :
    get_user_permissions exDB_union 1
      = ["a"] ++ List.flatten [["b"]] ++ ["c"] :=
  resolve_union_law exDB_union 1 editorRow
    { id := 1, name := "editor", description := none,
      permissions := .ofList ["a"] }
    ["a"] [["b"]] ["c"]
    (by decide) (by decide) (by decide) (by decide) (by decide) (by decide)

end LMS
